import Mathlib

/- Verification of the geospatial network-visualization pipeline of this
   repository: class NetworkGlobe in static/js/globe.js together with the
   helper functions of staticfiles/js/globe3d_full.js.

   Embedding conventions: numbers stored in topology records (JSON decimals)
   are rationals; positions produced by the coordinate projector are real
   vectors; the per-frame and per-rebuild mutation of scene objects is
   modelled as explicit state passing over the lists held by the
   NetworkGlobe instance (equipment, satellites, connections, cableLines). -/

/-- A 3D vector, mirroring THREE.Vector3 as the globe code uses it. -/
structure Vec3 where
  x : ℝ
  y : ℝ
  z : ℝ

/-- Euclidean length of a vector (THREE.Vector3.length). -/
noncomputable def Vec3.length (v : Vec3) : ℝ :=
  Real.sqrt (v.x ^ 2 + v.y ^ 2 + v.z ^ 2)

/-- THREE.Vector3.normalize divides each component by the length. (Three.js
    divides by length-or-1; the two models agree because the zero vector is
    fixed by both, division by zero producing zero here.) -/
noncomputable def Vec3.normalize (v : Vec3) : Vec3 :=
  ⟨v.x / v.length, v.y / v.length, v.z / v.length⟩

/-- THREE.Vector3.multiplyScalar. -/
def Vec3.multiplyScalar (v : Vec3) (s : ℝ) : Vec3 :=
  ⟨v.x * s, v.y * s, v.z * s⟩

/-- The surface-snap post-processing step the globe code writes as
    position.clone().normalize().multiplyScalar(r). -/
noncomputable def surfaceSnap (r : ℝ) (v : Vec3) : Vec3 :=
  v.normalize.multiplyScalar r

/-- latLonToVector3 from staticfiles/js/globe3d_full.js: the coordinate
    projector with the sphere radius passed as a parameter. -/
noncomputable def latLonToVector3 (lat lon radius : ℝ) : Vec3 :=
  let phi := (90 - lat) * (Real.pi / 180)
  let theta := (lon + 180) * (Real.pi / 180)
  ⟨-(radius * Real.sin phi * Real.cos theta),
    radius * Real.cos phi,
    radius * Real.sin phi * Real.sin theta⟩

/-- latLngAltToVector3 from static/js/globe.js: the coordinate projector of
    class NetworkGlobe, base radius hard-coded to 10 and altitude scaled by
    1/1000. -/
noncomputable def latLngAltToVector3 (lat lng alt : ℝ) : Vec3 :=
  let phi := (90 - lat) * (Real.pi / 180)
  let theta := (lng + 180) * (Real.pi / 180)
  let radius := 10 + alt / 1000
  ⟨-radius * Real.sin phi * Real.cos theta,
    radius * Real.cos phi,
    radius * Real.sin phi * Real.sin theta⟩

/- ------------------------------------------------------------------ -/
/- Topology data model: the shapes of the network-data and cable JSON
   documents the loaders consume. Record numbers are JSON decimals,
   modelled as rationals. The JS field named from is rendered here as
   fromId because from is a Lean keyword. -/

structure NetworkElement where
  id : String
  name : String
  type : String
  network : String
  lat : ℚ
  lng : ℚ
  alt : ℚ
  description : String
deriving DecidableEq

structure NetworkConnection where
  fromId : String
  toId : String
  type : String
  network : String
deriving DecidableEq

structure NetworkData where
  elements : List NetworkElement
  connections : List NetworkConnection
deriving DecidableEq

structure GeoPoint where
  lat : ℚ
  lng : ℚ
deriving DecidableEq

structure CableRecord where
  id : String
  name : String
  type : String
  color : Option String
  route : List GeoPoint
deriving DecidableEq

structure CableData where
  cables : List CableRecord
deriving DecidableEq

/-- The settings object of the NetworkGlobe constructor. -/
structure ViewSettings where
  showExisting : Bool
  showProposed : Bool
  showSatellites : Bool
  showStations : Bool
  showRouters : Bool
  showCables : Bool
  zoomLevel : ℚ
  isRotating : Bool
deriving DecidableEq

/-- shouldShowElement from globe.js: two network-class guards followed by the
    switch on element.type (a JS switch on a string is a sequential strict
    string comparison, rendered here as a chain of conditionals). -/
def shouldShowElement (s : ViewSettings) (element : NetworkElement) : Bool :=
  if !s.showExisting && element.network == "existing" then false
  else if !s.showProposed && element.network == "proposed" then false
  else if element.type == "satellite" then s.showSatellites
  else if element.type == "ground_station" then s.showStations
  else if element.type == "router" then s.showRouters
  else if element.type == "core_router" then s.showRouters
  else true

/-- shouldShowConnection from globe.js: it consults only the cables toggle,
    ignoring the connection record itself. -/
def shouldShowConnection (s : ViewSettings) (_conn : NetworkConnection) : Bool :=
  s.showCables

/-- The two network-class guard lines at the top of shouldShowElement,
    extracted: an element whose class toggle is off is rejected. -/
def networkClassEnabled (s : ViewSettings) (element : NetworkElement) : Bool :=
  !(!s.showExisting && element.network == "existing") &&
    !(!s.showProposed && element.network == "proposed")

/- ------------------------------------------------------------------ -/
/- Scene objects. A rendered line stores its Catmull-Rom control points and
   the getPoints subdivision count; the vertex buffer Three.js builds is
   curve.getPoints(divisions), a function of exactly these two fields, so
   two lines with equal controlPoints and divisions have identical
   geometry. -/

structure ConnectionLine where
  controlPoints : List Vec3
  divisions : Nat
  color : Nat

structure CableLine where
  controlPoints : List Vec3
  divisions : Nat
  color : String

/-- An element mesh as stored in this.equipment: its userData (the source
    record, an originalPosition and the isSatellite flag) plus the scene
    position assigned at creation. -/
structure Mesh where
  data : NetworkElement
  originalPosition : Vec3
  position : Vec3
  isSatellite : Bool

/-- The object collections mutated by createNetworkElements,
    clearNetworkElements, createConnections and createCables. -/
structure SceneState where
  equipment : List Mesh
  satellites : List Mesh
  connections : List ConnectionLine
  cableLines : List CableLine

def emptySceneState : SceneState :=
  { equipment := [], satellites := [], connections := [], cableLines := [] }

/-- clearNetworkElements: removes every mesh and line from the scene and
    empties all four collections. -/
def clearNetworkElements (st : SceneState) : SceneState :=
  { st with satellites := [], equipment := [], connections := [], cableLines := [] }

/-- The mesh built for one element inside the createNetworkElements loop:
    position from the projector, snapped onto radius 10.01 for non-satellite
    elements at altitude 0 (createElementMesh always yields a mesh, its
    switch having a default branch). -/
noncomputable def placeMesh (element : NetworkElement) : Mesh :=
  let position := latLngAltToVector3 element.lat element.lng element.alt
  let finalPos :=
    if element.type != "satellite" && element.alt == 0 then surfaceSnap 10.01 position
    else position
  { data := element
    originalPosition := position
    position := finalPos
    isSatellite := element.type == "satellite" }

/-- One iteration of the createNetworkElements forEach: a filtered element is
    pushed onto equipment, and onto satellites as well when its type is
    satellite. -/
noncomputable def addElement (s : ViewSettings) (st : SceneState)
    (element : NetworkElement) : SceneState :=
  if shouldShowElement s element then
    let mesh := placeMesh element
    { st with
        equipment := st.equipment ++ [mesh]
        satellites :=
          if element.type == "satellite" then st.satellites ++ [mesh]
          else st.satellites }
  else st

/-- findElementById from globe.js: first equipment mesh whose userData id
    matches. -/
def findElementById (equipment : List Mesh) (id : String) : Option Mesh :=
  equipment.find? fun el => el.data.id == id

/-- The color switch of createConnectionLine (colors.proposed for
    satellite_link, colors.existing for fiber, gray otherwise). -/
def connectionColor (type : String) : Nat :=
  if type == "satellite_link" then 0x00ff9d
  else if type == "fiber" then 0x6c63ff
  else 0x888888

/-- createConnectionLine from globe.js: a Catmull-Rom curve through exactly
    the two endpoint positions, sampled with getPoints(50); the connection
    type selects only the material color. -/
def createConnectionLine (fromPos toPos : Vec3) (type : String) : ConnectionLine :=
  { controlPoints := [fromPos, toPos]
    divisions := 50
    color := connectionColor type }

/-- The condition and line construction of the createConnections forEach for
    one connection record: resolve both endpoints among the rendered
    equipment and require the connection toggle; when all three hold, the
    line is created from the endpoints stored originalPosition values. -/
noncomputable def renderConnection (s : ViewSettings) (equipment : List Mesh)
    (conn : NetworkConnection) : Option ConnectionLine :=
  match findElementById equipment conn.fromId, findElementById equipment conn.toId with
  | some fromElement, some toElement =>
      if shouldShowConnection s conn then
        some (createConnectionLine fromElement.originalPosition
          toElement.originalPosition conn.type)
      else none
  | _, _ => none

/-- The state update of one createConnections iteration. -/
noncomputable def connectionStep (s : ViewSettings) (acc : SceneState)
    (conn : NetworkConnection) : SceneState :=
  match renderConnection s acc.equipment conn with
  | some line => { acc with connections := acc.connections ++ [line] }
  | none => acc

/-- createConnections from globe.js, folded over the connection records. -/
noncomputable def createConnections (s : ViewSettings) (data : NetworkData)
    (st : SceneState) : SceneState :=
  data.connections.foldl (connectionStep s) st

/-- createNetworkElements from globe.js: clear the collections, rebuild the
    element meshes from the topology under the current filter settings, then
    rebuild the connections. -/
noncomputable def createNetworkElements (s : ViewSettings) (data : NetworkData)
    (st : SceneState) : SceneState :=
  createConnections s data (data.elements.foldl (addElement s) (clearNetworkElements st))

/-- The cable color default of createCables: an explicit color wins,
    otherwise submarine cables are blue and the rest green. -/
def cableColor (cable : CableRecord) : String :=
  match cable.color with
  | some c => c
  | none => if cable.type == "submarine" then "#1e90ff" else "#00ff9d"

/-- createCableLine from globe.js: a route with fewer than 2 waypoints yields
    no line; otherwise every waypoint is projected at altitude 0, lifted onto
    radius 10.05, and the Catmull-Rom curve through the lifted waypoints is
    sampled with getPoints(100). -/
noncomputable def createCableLine (route : List GeoPoint) (color : String) :
    Option CableLine :=
  if route.length < 2 then none
  else some
    { controlPoints :=
        route.map fun point => surfaceSnap 10.05 (latLngAltToVector3 point.lat point.lng 0)
      divisions := 100
      color := color }

/-- The state update of one createCables iteration; the forEach body returns
    early when the cables toggle is off. -/
noncomputable def cableStep (s : ViewSettings) (acc : SceneState)
    (cable : CableRecord) : SceneState :=
  if !s.showCables then acc
  else
    match createCableLine cable.route (cableColor cable) with
    | some line => { acc with cableLines := acc.cableLines ++ [line] }
    | none => acc

/-- createCables from globe.js, folded over the cable records. -/
noncomputable def createCables (s : ViewSettings) (cableData : CableData)
    (st : SceneState) : SceneState :=
  cableData.cables.foldl (cableStep s) st

/-- updateNetworkView from globe.js, the filter-change handler: clear, then
    rebuild elements and connections, then rebuild cables.
    (createNetworkElements clears again on entry, as in the source.) -/
noncomputable def updateNetworkView (s : ViewSettings) (data : NetworkData)
    (cableData : CableData) (st : SceneState) : SceneState :=
  createCables s cableData (createNetworkElements s data (clearNetworkElements st))

/-- createSubmarineCable from staticfiles/js/globe3d_full.js: three control
    points, the middle one the endpoint average scaled by 1.1 (the bend), and
    getPoints(50). -/
noncomputable def createSubmarineCable (startLat startLon endLat endLon : ℝ)
    (color : Nat) : ConnectionLine :=
  let radius : ℝ := 5.05
  let startPoint := latLonToVector3 startLat startLon radius
  let endPoint := latLonToVector3 endLat endLon radius
  { controlPoints :=
      [startPoint,
        ⟨(startPoint.x + endPoint.x) / 2 * 1.1,
          (startPoint.y + endPoint.y) / 2 * 1.1,
          (startPoint.z + endPoint.z) / 2 * 1.1⟩,
        endPoint]
    divisions := 50
    color := color }

/-- Whether some element of the list both carries the given id and passes the
    element visibility filter: the condition under which findElementById
    succeeds on the rebuilt equipment. -/
def elementIdVisibleB (s : ViewSettings) (elements : List NetworkElement)
    (id : String) : Bool :=
  elements.any fun el => el.id == id && shouldShowElement s el

/- ------------------------------------------------------------------ -/
/- Topology and cable loaders. A fetch-and-parse attempt has three possible
   shapes: the transport fails (fetch rejects), or a response arrives whose
   body either fails to parse as JSON (response.json() rejects) or parses to
   a payload. The HTTP status accompanies every response. The async methods
   wrap the whole attempt in try/catch, so they always resolve; the catch
   branch substitutes the hard-coded fallback. -/

inductive FetchOutcome (α : Type) where
  | networkError : FetchOutcome α
  | response (status : Nat) (body : Option α) : FetchOutcome α

/-- await fetch(...) followed by await response.json(): an exception for a
    transport failure or an unparsable body, the parsed payload otherwise.
    The status is never consulted, faithful to the source, which reads
    neither response.ok nor response.status. -/
def fetchJson {α : Type} (outcome : FetchOutcome α) : Except String α :=
  match outcome with
  | FetchOutcome.networkError => Except.error "failed to fetch"
  | FetchOutcome.response _ none => Except.error "invalid json"
  | FetchOutcome.response _ (some payload) => Except.ok payload

/-- The hard-coded sample topology installed by loadDemoData. -/
def demoData : NetworkData :=
  { elements := [
      { id := "demo-sat1"
        name := "Starlink Satellite"
        type := "satellite"
        network := "existing"
        lat := 40.7128
        lng := -74.0060
        alt := 550
        description := "Low Earth orbit satellite" }]
    connections := [] }

/-- loadNetworkData from globe.js: any thrown error is caught and the demo
    topology substituted. -/
def loadNetworkData (outcome : FetchOutcome NetworkData) : NetworkData :=
  match fetchJson outcome with
  | Except.ok data => data
  | Except.error _ => demoData

/-- The fallback installed by the catch branch of loadCableData. -/
def emptyCableData : CableData := { cables := [] }

/-- loadCableData from globe.js: any thrown error is caught and an empty
    cable list substituted. -/
def loadCableData (outcome : FetchOutcome CableData) : CableData :=
  match fetchJson outcome with
  | Except.ok data => data
  | Except.error _ => emptyCableData

/- ------------------------------------------------------------------ -/
/- Rotation state. Each animation frame with isRotating set advances
   earth.rotation.y by 0.001; the ground-equipment loop then recomputes each
   non-satellite position from the stored record coordinates, adding the
   rotation converted with the literal constant 57.2958 and snapping
   altitude-0 equipment onto radius 10.01. -/

/-- The per-frame rotation advance of animate: earth.rotation.y += 0.001,
    guarded by settings.isRotating. -/
def animateEarthRotation (isRotating : Bool) (angle : ℝ) : ℝ :=
  if isRotating then angle + 0.001 else angle

/-- The ground-equipment position recomputation of animate for one
    non-satellite item with stored record coordinates (lat, lng, alt). -/
noncomputable def groundSyncPosition (rotationY : ℝ) (lat lng alt : ℚ) : Vec3 :=
  let rotatedLng : ℝ := (lng : ℝ) + rotationY * 57.2958
  let newPos := latLngAltToVector3 lat rotatedLng alt
  if alt = 0 then surfaceSnap 10.01 newPos else newPos

/- ------------------------------------------------------------------ -/
/- Concrete records used to instantiate the theorems below. -/

def elementA : NetworkElement :=
  { id := "A", name := "Router A", type := "router", network := "existing",
    lat := 0, lng := 0, alt := 0, description := "existing router" }

def elementB : NetworkElement :=
  { id := "B", name := "Sat B", type := "satellite", network := "proposed",
    lat := 10, lng := 20, alt := 550, description := "proposed satellite" }

def linkAB : NetworkConnection :=
  { fromId := "A", toId := "B", type := "satellite_link", network := "proposed" }

def exampleTopology : NetworkData :=
  { elements := [elementA, elementB], connections := [linkAB] }

/-- Settings with every toggle on except showProposed. -/
def hideProposedSettings : ViewSettings :=
  { showExisting := true, showProposed := false, showSatellites := true,
    showStations := true, showRouters := true, showCables := true,
    zoomLevel := 50, isRotating := true }

/-- Settings with every toggle on (the constructor defaults). -/
def showAllSettings : ViewSettings :=
  { showExisting := true, showProposed := true, showSatellites := true,
    showStations := true, showRouters := true, showCables := true,
    zoomLevel := 50, isRotating := true }

/-- Settings with every per-category checkbox off. -/
def togglesOffSettings : ViewSettings :=
  { showExisting := true, showProposed := true, showSatellites := false,
    showStations := false, showRouters := false, showCables := false,
    zoomLevel := 50, isRotating := true }

/-- An element whose type is outside the recognized switch cases. -/
def switchElement : NetworkElement :=
  { id := "S", name := "Switch S", type := "switch", network := "existing",
    lat := 0, lng := 0, alt := 0, description := "a switch" }

def shortCable : CableRecord :=
  { id := "c1", name := "Short", type := "submarine", color := none,
    route := [⟨0, 0⟩] }

def goodCable : CableRecord :=
  { id := "c2", name := "Good", type := "submarine", color := some "#ffffff",
    route := [⟨0, 0⟩, ⟨10, 20⟩] }

def demoCableBatch : CableData := { cables := [shortCable, goodCable] }

/-- A syntactically valid JSON payload, distinct from the demo dataset, as a
    server might attach to a non-2xx response. -/
def statusErrorPayload : NetworkData := { elements := [], connections := [] }

/- ================================================================== -/
/- Theorems. -/

theorem Vec3.length_mk (a b c : ℝ) :
    (Vec3.mk a b c).length = Real.sqrt (a ^ 2 + b ^ 2 + c ^ 2) := rfl

/-- The two projector functions implement the same formula; the globe.js one
    fixes the radius at 10 + alt / 1000. -/
theorem latLngAlt_eq_latLon (lat lng alt : ℝ) :
    latLngAltToVector3 lat lng alt = latLonToVector3 lat lng (10 + alt / 1000) := by
  simp only [latLngAltToVector3, latLonToVector3, neg_mul]

/-- Points projected at altitude 0 sit at distance `radius` from the origin. -/
theorem latLonToVector3_length (lat lon radius : ℝ) (h : 0 ≤ radius) :
    (latLonToVector3 lat lon radius).length = radius := by
  have hphi := Real.sin_sq_add_cos_sq ((90 - lat) * (Real.pi / 180))
  have htheta := Real.sin_sq_add_cos_sq ((lon + 180) * (Real.pi / 180))
  simp only [latLonToVector3, Vec3.length_mk]
  have key :
      (-(radius * Real.sin ((90 - lat) * (Real.pi / 180)) *
            Real.cos ((lon + 180) * (Real.pi / 180)))) ^ 2 +
          (radius * Real.cos ((90 - lat) * (Real.pi / 180))) ^ 2 +
          (radius * Real.sin ((90 - lat) * (Real.pi / 180)) *
            Real.sin ((lon + 180) * (Real.pi / 180))) ^ 2 = radius ^ 2 := by
    linear_combination
      radius ^ 2 * Real.sin ((90 - lat) * (Real.pi / 180)) ^ 2 * htheta +
        radius ^ 2 * hphi
  rw [key]
  exact Real.sqrt_sq h

/-- Snapping a projected surface point onto radius `r` is the same as
    projecting directly with radius `r`. -/
theorem surfaceSnap_latLon (lat lon bigR r : ℝ) (h : 0 < bigR) :
    surfaceSnap r (latLonToVector3 lat lon bigR) = latLonToVector3 lat lon r := by
  have hlen : (latLonToVector3 lat lon bigR).length = bigR :=
    latLonToVector3_length lat lon bigR h.le
  have hne : bigR ≠ 0 := ne_of_gt h
  simp only [surfaceSnap, Vec3.normalize, Vec3.multiplyScalar, hlen]
  simp only [latLonToVector3, Vec3.mk.injEq]
  refine ⟨by field_simp; ring, by field_simp; ring, by field_simp; ring⟩

/-- The projector sends latitude 90 to the north pole, whatever the
    longitude. -/
theorem latLon_north_pole (lon radius : ℝ) :
    latLonToVector3 90 lon radius = ⟨0, radius, 0⟩ := by
  simp only [latLonToVector3, Vec3.mk.injEq]
  norm_num

/-- The projector sends latitude -90 to the south pole, whatever the
    longitude. -/
theorem latLon_south_pole (lon radius : ℝ) :
    latLonToVector3 (-90) lon radius = ⟨0, -radius, 0⟩ := by
  have harg : ((90 : ℝ) - (-90)) * (Real.pi / 180) = Real.pi := by ring
  simp only [latLonToVector3, harg, Vec3.mk.injEq]
  norm_num

theorem latLngAlt_north_pole (lng : ℝ) :
    latLngAltToVector3 90 lng 0 = ⟨0, 10, 0⟩ := by
  rw [latLngAlt_eq_latLon]
  norm_num [latLon_north_pole]

theorem latLngAlt_south_pole (lng : ℝ) :
    latLngAltToVector3 (-90) lng 0 = ⟨0, -10, 0⟩ := by
  rw [latLngAlt_eq_latLon]
  norm_num [latLon_south_pole]

/-- C5: for all lat in [-90, 90] and lon in [-180, 180], projecting at
    altitude 0 yields a point whose Euclidean distance from the origin equals
    the base radius: the parametric projector latLonToVector3 returns a point
    at distance `radius`, and the globe.js projector latLngAltToVector3 (base
    radius hard-coded to 10) returns a point at distance 10. -/
theorem projector_surface_invariant (lat lon radius : ℝ)
    (hlat1 : -90 ≤ lat) (hlat2 : lat ≤ 90)
    (hlon1 : -180 ≤ lon) (hlon2 : lon ≤ 180) (hrad : 0 ≤ radius) :
    (latLonToVector3 lat lon radius).length = radius ∧
    (latLngAltToVector3 lat lon 0).length = 10 := by
  refine ⟨latLonToVector3_length lat lon radius hrad, ?_⟩
  rw [latLngAlt_eq_latLon]
  have h10 : (10 : ℝ) + 0 / 1000 = 10 := by norm_num
  rw [h10]
  exact latLonToVector3_length lat lon 10 (by norm_num)

theorem projector_surface_invariant_witness :
    (latLonToVector3 45 30 10).length = 10 ∧
    (latLngAltToVector3 45 30 0).length = 10 :=
  projector_surface_invariant 45 30 10 (by norm_num) (by norm_num) (by norm_num)
    (by norm_num) (by norm_num)

/-- C6: for every longitude, the globe.js projector maps latitude 90 at
    altitude 0 exactly to (0, 10, 0) and latitude -90 exactly to (0, -10, 0),
    independently of the longitude (10 is the hard-coded base radius). -/
theorem projector_poles (lon : ℝ) :
    latLngAltToVector3 90 lon 0 = ⟨0, 10, 0⟩ ∧
    latLngAltToVector3 (-90) lon 0 = ⟨0, -10, 0⟩ :=
  ⟨latLngAlt_north_pole lon, latLngAlt_south_pole lon⟩

theorem placeMesh_data (element : NetworkElement) : (placeMesh element).data = element := rfl

/-- Folding the element loop appends exactly the meshes of the elements that
    pass the visibility filter, in order. -/
theorem foldl_addElement_equipment (s : ViewSettings) (l : List NetworkElement)
    (st : SceneState) :
    (l.foldl (addElement s) st).equipment
      = st.equipment ++ (l.filter fun el => shouldShowElement s el).map placeMesh := by
  induction l generalizing st with
  | nil => simp
  | cons el rest ih =>
    rw [List.foldl_cons, ih]
    cases h : shouldShowElement s el <;>
      simp [addElement, h, List.filter_cons]

/-- Folding the element loop appends onto satellites exactly the meshes of
    the shown elements whose type is satellite. -/
theorem foldl_addElement_satellites (s : ViewSettings) (l : List NetworkElement)
    (st : SceneState) :
    (l.foldl (addElement s) st).satellites
      = st.satellites ++
          (l.filter fun el => shouldShowElement s el && el.type == "satellite").map
            placeMesh := by
  induction l generalizing st with
  | nil => simp
  | cons el rest ih =>
    rw [List.foldl_cons, ih]
    cases h1 : shouldShowElement s el <;> cases h2 : el.type == "satellite" <;>
      simp [addElement, h1, h2, List.filter_cons]

theorem connectionStep_equipment (s : ViewSettings) (acc : SceneState)
    (conn : NetworkConnection) :
    (connectionStep s acc conn).equipment = acc.equipment ∧
    (connectionStep s acc conn).satellites = acc.satellites := by
  cases h : renderConnection s acc.equipment conn <;> simp [connectionStep, h]

/-- createConnections touches only the connections list. -/
theorem createConnections_preserves (s : ViewSettings) (data : NetworkData)
    (st : SceneState) :
    (createConnections s data st).equipment = st.equipment ∧
    (createConnections s data st).satellites = st.satellites := by
  unfold createConnections
  generalize data.connections = l
  induction l generalizing st with
  | nil => exact ⟨rfl, rfl⟩
  | cons conn rest ih =>
    rw [List.foldl_cons]
    have hstep := connectionStep_equipment s st conn
    have hrec := ih (connectionStep s st conn)
    exact ⟨hrec.1.trans hstep.1, hrec.2.trans hstep.2⟩

theorem cableStep_preserves (s : ViewSettings) (acc : SceneState)
    (cable : CableRecord) :
    (cableStep s acc cable).equipment = acc.equipment ∧
    (cableStep s acc cable).satellites = acc.satellites := by
  unfold cableStep
  cases hs : !s.showCables
  · cases h : createCableLine cable.route (cableColor cable) <;> simp [hs, h]
  · simp [hs]

/-- createCables touches only the cableLines list. -/
theorem createCables_preserves (s : ViewSettings) (cableData : CableData)
    (st : SceneState) :
    (createCables s cableData st).equipment = st.equipment ∧
    (createCables s cableData st).satellites = st.satellites := by
  unfold createCables
  generalize cableData.cables = l
  induction l generalizing st with
  | nil => exact ⟨rfl, rfl⟩
  | cons cable rest ih =>
    rw [List.foldl_cons]
    have hstep := cableStep_preserves s st cable
    have hrec := ih (cableStep s st cable)
    exact ⟨hrec.1.trans hstep.1, hrec.2.trans hstep.2⟩

/-- The equipment list after a rebuild: the filtered topology, mesh by mesh. -/
theorem createNetworkElements_equipment (s : ViewSettings) (data : NetworkData)
    (st : SceneState) :
    (createNetworkElements s data st).equipment
      = (data.elements.filter fun el => shouldShowElement s el).map placeMesh := by
  unfold createNetworkElements
  rw [(createConnections_preserves s data _).1, foldl_addElement_equipment]
  simp [clearNetworkElements]

/-- The satellites list after a rebuild: the shown satellite-typed elements. -/
theorem createNetworkElements_satellites (s : ViewSettings) (data : NetworkData)
    (st : SceneState) :
    (createNetworkElements s data st).satellites
      = (data.elements.filter
          fun el => shouldShowElement s el && el.type == "satellite").map placeMesh := by
  unfold createNetworkElements
  rw [(createConnections_preserves s data _).2, foldl_addElement_satellites]
  simp [clearNetworkElements]

/-- Filtering the rebuilt meshes for satellite type is the same as filtering
    the elements before building the meshes. -/
theorem map_filter_satellite (s : ViewSettings) (l : List NetworkElement) :
    ((l.filter fun el => shouldShowElement s el).map placeMesh).filter
        (fun mesh => mesh.data.type == "satellite")
      = (l.filter fun el => shouldShowElement s el && el.type == "satellite").map
          placeMesh := by
  induction l with
  | nil => rfl
  | cons el rest ih =>
    cases h1 : shouldShowElement s el <;> cases h2 : el.type == "satellite" <;>
      simp [List.filter_cons, h1, h2, placeMesh_data, ih]

/-- C9: after a rebuild (on data load via createNetworkElements, or on a
    filter change via updateNetworkView) the satellites collection is exactly
    the satellite-typed subset of the equipment collection, and
    clearNetworkElements empties both together. -/
theorem satellites_match_equipment (s : ViewSettings) (data : NetworkData)
    (cableData : CableData) (st : SceneState) :
    ((createNetworkElements s data st).satellites
        = (createNetworkElements s data st).equipment.filter
            fun mesh => mesh.data.type == "satellite") ∧
    ((updateNetworkView s data cableData st).satellites
        = (updateNetworkView s data cableData st).equipment.filter
            fun mesh => mesh.data.type == "satellite") ∧
    (clearNetworkElements st).satellites = [] ∧
    (clearNetworkElements st).equipment = [] := by
  refine ⟨?_, ?_, rfl, rfl⟩
  · rw [createNetworkElements_satellites, createNetworkElements_equipment,
      map_filter_satellite]
  · unfold updateNetworkView
    rw [(createCables_preserves s cableData _).1, (createCables_preserves s cableData _).2,
      createNetworkElements_satellites, createNetworkElements_equipment,
      map_filter_satellite]

/-- findElementById succeeds on the rebuilt equipment exactly when some
    element of the topology carries the id and passes the filter. -/
theorem findElementById_mapped (s : ViewSettings) (id : String)
    (l : List NetworkElement) :
    (findElementById ((l.filter fun el => shouldShowElement s el).map placeMesh)
        id).isSome
      = elementIdVisibleB s l id := by
  induction l with
  | nil => rfl
  | cons el rest ih =>
    have ihu : (List.find? (fun m => m.data.id == id)
          ((rest.filter fun el => shouldShowElement s el).map placeMesh)).isSome
        = elementIdVisibleB s rest id := ih
    have hrhs : elementIdVisibleB s (el :: rest) id
        = ((el.id == id && shouldShowElement s el) || elementIdVisibleB s rest id) := by
      simp only [elementIdVisibleB, List.any_cons]
    rw [hrhs]
    cases h1 : shouldShowElement s el
    · rw [List.filter_cons_of_neg (by simp [h1]), ih]
      simp [h1]
    · rw [List.filter_cons_of_pos (by simp [h1]), List.map_cons]
      cases h2 : el.id == id
      · rw [show findElementById
              (placeMesh el :: (rest.filter fun el => shouldShowElement s el).map placeMesh) id
            = List.find? (fun m => m.data.id == id)
                ((rest.filter fun el => shouldShowElement s el).map placeMesh)
            from List.find?_cons_of_neg _ (by simp [placeMesh_data, h2])]
        rw [ihu]
        simp [h1, h2]
      · rw [show findElementById
              (placeMesh el :: (rest.filter fun el => shouldShowElement s el).map placeMesh) id
            = some (placeMesh el)
            from List.find?_cons_of_pos _ (by simp [placeMesh_data, h2])]
        simp [h1, h2]

/-- C1: a connection line is generated for a link exactly when both endpoint
    ids resolve to elements that pass the element visibility filter and the
    cables toggle is on; in particular, with showProposed off, the example
    link from visible existing element A to hidden proposed element B is not
    rendered even though A stays visible. -/
theorem link_rendered_iff :
    (∀ (s : ViewSettings) (data : NetworkData) (conn : NetworkConnection)
        (st : SceneState),
        (renderConnection s (createNetworkElements s data st).equipment conn).isSome
          = (elementIdVisibleB s data.elements conn.fromId &&
              elementIdVisibleB s data.elements conn.toId &&
              shouldShowConnection s conn)) ∧
    (renderConnection hideProposedSettings
        (createNetworkElements hideProposedSettings exampleTopology
          emptySceneState).equipment linkAB).isSome = false ∧
    elementIdVisibleB hideProposedSettings exampleTopology.elements "A" = true := by
  have main : ∀ (s : ViewSettings) (data : NetworkData) (conn : NetworkConnection)
      (st : SceneState),
      (renderConnection s (createNetworkElements s data st).equipment conn).isSome
        = (elementIdVisibleB s data.elements conn.fromId &&
            elementIdVisibleB s data.elements conn.toId &&
            shouldShowConnection s conn) := by
    intro s data conn st
    rw [createNetworkElements_equipment]
    have hfrom := findElementById_mapped s conn.fromId data.elements
    have hto := findElementById_mapped s conn.toId data.elements
    cases hf : findElementById
        ((data.elements.filter fun el => shouldShowElement s el).map placeMesh)
        conn.fromId with
    | none =>
      rw [hf] at hfrom
      simp [renderConnection, hf, ← hfrom]
    | some fromElement =>
      rw [hf] at hfrom
      cases ht : findElementById
          ((data.elements.filter fun el => shouldShowElement s el).map placeMesh)
          conn.toId with
      | none =>
        rw [ht] at hto
        simp [renderConnection, hf, ht, ← hfrom, ← hto]
      | some toElement =>
        rw [ht] at hto
        cases hs : shouldShowConnection s conn <;>
          simp [renderConnection, hf, ht, ← hfrom, ← hto, hs]
  refine ⟨main, ?_, by decide⟩
  rw [main hideProposedSettings exampleTopology linkAB emptySceneState]
  decide

/-- C10: an element whose type is outside the four recognized switch cases
    falls into the default branch, so the filter verdict is exactly the
    network-class guard: none of the per-category toggles can hide it. -/
theorem default_type_ignores_toggles (s : ViewSettings) (element : NetworkElement)
    (h : element.type ∉
        (["satellite", "ground_station", "router", "core_router"] : List String)) :
    shouldShowElement s element = networkClassEnabled s element := by
  simp only [List.mem_cons, List.not_mem_nil, or_false, not_or] at h
  obtain ⟨h1, h2, h3, h4⟩ := h
  have e1 : (element.type == "satellite") = false := beq_eq_false_iff_ne.mpr h1
  have e2 : (element.type == "ground_station") = false := beq_eq_false_iff_ne.mpr h2
  have e3 : (element.type == "router") = false := beq_eq_false_iff_ne.mpr h3
  have e4 : (element.type == "core_router") = false := beq_eq_false_iff_ne.mpr h4
  simp only [shouldShowElement, networkClassEnabled, e1, e2, e3, e4]
  cases hg1 : !s.showExisting && element.network == "existing" <;>
    cases hg2 : !s.showProposed && element.network == "proposed" <;>
      simp [hg1, hg2]

theorem default_type_ignores_toggles_witness :
    shouldShowElement togglesOffSettings switchElement
      = networkClassEnabled togglesOffSettings switchElement :=
  default_type_ignores_toggles togglesOffSettings switchElement (by decide)

/-- With the cables toggle on, folding the cable loop appends exactly the
    lines produced for the routes that survive createCableLine. -/
theorem foldl_cableStep_lines (s : ViewSettings) (h : s.showCables = true)
    (l : List CableRecord) (st : SceneState) :
    (l.foldl (cableStep s) st).cableLines
      = st.cableLines ++
          l.filterMap fun cable => createCableLine cable.route (cableColor cable) := by
  induction l generalizing st with
  | nil => simp
  | cons cable rest ih =>
    rw [List.foldl_cons, ih]
    cases hc : createCableLine cable.route (cableColor cable) <;>
      simp [cableStep, h, hc, List.filterMap_cons]

/-- C8: with the cables toggle on, the rendered cable list is exactly the
    lines of the routes createCableLine accepts; a route with fewer than 2
    waypoints yields none and so never appears, while every route with at
    least 2 waypoints in the same batch yields a line. -/
theorem cable_routes_skip_short (s : ViewSettings) (cableData : CableData)
    (st : SceneState) (h : s.showCables = true) :
    (createCables s cableData st).cableLines
        = st.cableLines ++
            cableData.cables.filterMap
              (fun cable => createCableLine cable.route (cableColor cable)) ∧
    (∀ cable : CableRecord, cable.route.length < 2 →
        createCableLine cable.route (cableColor cable) = none) ∧
    (∀ cable : CableRecord, 2 ≤ cable.route.length →
        (createCableLine cable.route (cableColor cable)).isSome = true) := by
  refine ⟨foldl_cableStep_lines s h cableData.cables st, ?_, ?_⟩
  · intro cable hlen
    simp [createCableLine, hlen]
  · intro cable hlen
    have hnot : ¬ cable.route.length < 2 := by omega
    simp [createCableLine, hnot]

theorem cable_routes_skip_short_witness :
    (createCables showAllSettings demoCableBatch emptySceneState).cableLines
        = emptySceneState.cableLines ++
            demoCableBatch.cables.filterMap
              (fun cable => createCableLine cable.route (cableColor cable)) ∧
    (∀ cable : CableRecord, cable.route.length < 2 →
        createCableLine cable.route (cableColor cable) = none) ∧
    (∀ cable : CableRecord, 2 ≤ cable.route.length →
        (createCableLine cable.route (cableColor cable)).isSome = true) :=
  cable_routes_skip_short showAllSettings demoCableBatch emptySceneState rfl

/-- C2 counterexample: 500 is not a 2xx status, yet when the 500 response
    carries a JSON body the loader keeps that body instead of substituting
    the demo dataset, because the source never reads response.ok or
    response.status. -/
theorem loader_status_counterexample :
    loadNetworkData (FetchOutcome.response 500 (some statusErrorPayload))
        = statusErrorPayload ∧
    statusErrorPayload ≠ demoData :=
  ⟨rfl, by decide⟩

/-- C2 amended: both loaders always resolve; when the fetch-and-parse throws
    (transport failure, or a body that fails JSON parsing) the topology
    loader substitutes the hard-coded demo dataset and the cable loader an
    empty cable list; the HTTP status is never inspected, so any response
    with a parseable body, 2xx or not, is used as-is. -/
theorem loader_fallback_amended :
    (∀ (status : Nat) (body : NetworkData),
        loadNetworkData (FetchOutcome.response status (some body)) = body) ∧
    loadNetworkData FetchOutcome.networkError = demoData ∧
    (∀ status : Nat,
        loadNetworkData (FetchOutcome.response status none) = demoData) ∧
    (∀ (status : Nat) (body : CableData),
        loadCableData (FetchOutcome.response status (some body)) = body) ∧
    loadCableData FetchOutcome.networkError = emptyCableData ∧
    (∀ status : Nat,
        loadCableData (FetchOutcome.response status none) = emptyCableData) :=
  ⟨fun _ _ => rfl, rfl, fun _ => rfl, fun _ _ => rfl, rfl, fun _ => rfl⟩

/-- The ground-sync recomputation is the projector formula evaluated at the
    rotated longitude and the snap radius 10.01. -/
theorem groundSync_eq (rotationY : ℝ) (lat lng : ℚ) :
    groundSyncPosition rotationY lat lng 0
      = latLonToVector3 lat ((lng : ℝ) + rotationY * 57.2958) 10.01 := by
  simp only [groundSyncPosition]
  rw [if_pos trivial, latLngAlt_eq_latLon]
  have h10 : (10 : ℝ) + ((0 : ℚ) : ℝ) / 1000 = 10 := by norm_num
  rw [h10]
  exact surfaceSnap_latLon _ _ 10 10.01 (by norm_num)

/-- The accumulated rotation after k rotating frames. -/
theorem animateEarthRotation_iterate (a : ℝ) (k : ℕ) :
    (animateEarthRotation true)^[k] a = a + 0.001 * k := by
  induction k with
  | zero => simp
  | succ n ih =>
    rw [Function.iterate_succ_apply', ih]
    simp only [animateEarthRotation, if_pos]
    push_cast
    ring

/-- C3 counterexample: the rotation angle 0.5 is reachable in 500 frames; at
    the north pole (stored longitude 10, altitude 0) the recomputed position
    has length 10.01 from the surface snap, so it differs from the projector
    output at the rotated longitude, whose length is the base radius 10. -/
theorem ground_sync_counterexample :
    (animateEarthRotation true)^[500] 0 = (0.5 : ℝ) ∧
    groundSyncPosition 0.5 90 10 0
      ≠ latLngAltToVector3 90 (10 + 0.5 * (180 / Real.pi)) 0 := by
  constructor
  · rw [animateEarthRotation_iterate]
    norm_num
  · intro hcontra
    rw [groundSync_eq, latLngAlt_north_pole,
      show ((90 : ℚ) : ℝ) = (90 : ℝ) by norm_num, latLon_north_pole] at hcontra
    have hy := congrArg Vec3.y hcontra
    simp only at hy
    norm_num at hy

/-- C3 amended: for every reachable rotation angle and every ground element
    (non-satellite, altitude 0), the recomputed position equals the
    coordinate projector applied at longitude lng + angle * 57.2958 (the
    literal degree-conversion constant of the source) with radius 10.01, the
    surface-snap radius, rather than the projector base radius 10. -/
theorem ground_sync_amended (rotationY : ℝ) (lat lng : ℚ) :
    groundSyncPosition rotationY lat lng 0
      = latLonToVector3 lat ((lng : ℝ) + rotationY * 57.2958) 10.01 :=
  groundSync_eq rotationY lat lng

/-- C4 counterexample: 6284 rotating frames starting from angle 0 reach the
    angle 6.284, which is outside [0, 2 * pi): the advance is never wrapped. -/
theorem rotation_angle_counterexample :
    (animateEarthRotation true)^[6284] 0 = (6.284 : ℝ) ∧
    2 * Real.pi < (animateEarthRotation true)^[6284] 0 := by
  have h : (animateEarthRotation true)^[6284] (0 : ℝ) = 6.284 := by
    rw [animateEarthRotation_iterate]
    norm_num
  refine ⟨h, ?_⟩
  rw [h]
  have hpi := Real.pi_lt_d6
  linarith

/-- C4 amended: each rotating frame advances the angle by exactly 0.001 and
    no wrap is applied: after k frames the angle is the start plus 0.001 * k,
    a paused frame leaves it unchanged, and the reachable angles exceed every
    bound, leaving [0, 2 * pi). -/
theorem rotation_angle_amended :
    (∀ (a : ℝ) (k : ℕ), (animateEarthRotation true)^[k] a = a + 0.001 * k) ∧
    (∀ a : ℝ, animateEarthRotation false a = a) ∧
    (∀ bound : ℝ, ∃ k : ℕ, bound < (animateEarthRotation true)^[k] 0) := by
  refine ⟨fun a k => animateEarthRotation_iterate a k, fun a => rfl, ?_⟩
  intro bound
  refine ⟨⌈bound * 1000⌉₊ + 1, ?_⟩
  rw [animateEarthRotation_iterate]
  have hceil : bound * 1000 ≤ (⌈bound * 1000⌉₊ : ℝ) := Nat.le_ceil _
  push_cast
  linarith

/-- C7 counterexample: for the same endpoints, a satellite_link line and a
    fiber line carry identical control points (just the two endpoints: no
    lifted mid-point) and identical subdivision counts, so their sampled
    geometry is identical and the satellite arc is not taller; only the
    material color differs. -/
theorem link_geometry_counterexample :
    (createConnectionLine ⟨1, 0, 0⟩ ⟨0, 1, 0⟩ "satellite_link").controlPoints
        = (createConnectionLine ⟨1, 0, 0⟩ ⟨0, 1, 0⟩ "fiber").controlPoints ∧
    (createConnectionLine ⟨1, 0, 0⟩ ⟨0, 1, 0⟩ "satellite_link").divisions
        = (createConnectionLine ⟨1, 0, 0⟩ ⟨0, 1, 0⟩ "fiber").divisions ∧
    (createConnectionLine ⟨1, 0, 0⟩ ⟨0, 1, 0⟩ "satellite_link").controlPoints
        = [⟨1, 0, 0⟩, ⟨0, 1, 0⟩] ∧
    (createConnectionLine ⟨1, 0, 0⟩ ⟨0, 1, 0⟩ "satellite_link").color
        ≠ (createConnectionLine ⟨1, 0, 0⟩ ⟨0, 1, 0⟩ "fiber").color :=
  ⟨rfl, rfl, rfl, by decide⟩

/-- C7 amended: link geometry is the Catmull-Rom curve through exactly the
    two endpoint control points sampled with 50 subdivisions, independent of
    the link type (which picks only the color, so no height scaling); cable
    geometry is the Catmull-Rom curve through the route waypoints each
    snapped onto radius 10.05, sampled with 100 subdivisions; only
    createSubmarineCable of globe3d_full.js inserts a third, lifted mid
    control point. -/
theorem link_geometry_amended (fromPos toPos : Vec3) (type : String)
    (route : List GeoPoint) (color : String) (h : 2 ≤ route.length) :
    (createConnectionLine fromPos toPos type).controlPoints = [fromPos, toPos] ∧
    (createConnectionLine fromPos toPos type).divisions = 50 ∧
    (createConnectionLine fromPos toPos type).controlPoints
        = (createConnectionLine fromPos toPos "fiber").controlPoints ∧
    (createConnectionLine fromPos toPos type).divisions
        = (createConnectionLine fromPos toPos "fiber").divisions ∧
    createCableLine route color = some
      { controlPoints := route.map fun point =>
          surfaceSnap 10.05 (latLngAltToVector3 point.lat point.lng 0)
        divisions := 100
        color := color } ∧
    (∀ (startLat startLon endLat endLon : ℝ) (c : Nat),
        (createSubmarineCable startLat startLon endLat endLon c).controlPoints.length
          = 3) := by
  refine ⟨rfl, rfl, rfl, rfl, ?_, fun _ _ _ _ _ => rfl⟩
  have hnot : ¬ route.length < 2 := by omega
  simp [createCableLine, hnot]

theorem link_geometry_amended_witness :
    (createConnectionLine ⟨1, 0, 0⟩ ⟨0, 1, 0⟩ "satellite_link").controlPoints
        = [⟨1, 0, 0⟩, ⟨0, 1, 0⟩] ∧
    (createConnectionLine ⟨1, 0, 0⟩ ⟨0, 1, 0⟩ "satellite_link").divisions = 50 ∧
    (createConnectionLine ⟨1, 0, 0⟩ ⟨0, 1, 0⟩ "satellite_link").controlPoints
        = (createConnectionLine ⟨1, 0, 0⟩ ⟨0, 1, 0⟩ "fiber").controlPoints ∧
    (createConnectionLine ⟨1, 0, 0⟩ ⟨0, 1, 0⟩ "satellite_link").divisions
        = (createConnectionLine ⟨1, 0, 0⟩ ⟨0, 1, 0⟩ "fiber").divisions ∧
    createCableLine [⟨0, 0⟩, ⟨10, 20⟩] "#1e90ff" = some
      { controlPoints := [(⟨0, 0⟩ : GeoPoint), ⟨10, 20⟩].map fun point =>
          surfaceSnap 10.05 (latLngAltToVector3 point.lat point.lng 0)
        divisions := 100
        color := "#1e90ff" } ∧
    (∀ (startLat startLon endLat endLon : ℝ) (c : Nat),
        (createSubmarineCable startLat startLon endLat endLon c).controlPoints.length
          = 3) :=
  link_geometry_amended ⟨1, 0, 0⟩ ⟨0, 1, 0⟩ "satellite_link"
    [⟨0, 0⟩, ⟨10, 20⟩] "#1e90ff" (by decide)
